import Mathlib

set_option autoImplicit false

/-!
Verification development for the `ollama-ui` streaming chat pipeline.

The development shallowly embeds the streaming-relay route handler
(`src/app/api/chat/route.ts`, `POST`), the client chat hook
(`src/app/hooks/useChat.tsx`: `sendMessageCore`, `cancelGeneration`,
`editMessage`, `deleteMessage`) and the persistence module
(`ChatStorage`).  JavaScript strings are embedded as `List Char`,
JavaScript numbers occurring here as nonnegative integer counters and
nanosecond durations as `Nat`, and derived throughput values as exact
rationals `ℚ`.  Absent (`undefined`) values are `Option`.
-/

/-- JavaScript strings, embedded as lists of characters. -/
abbrev JsStr := List Char

/-- The ASCII whitespace characters relevant to `String.prototype.trim`
(the upstream protocol is ASCII JSON, so the exotic Unicode space
separators are irrelevant here). -/
def jsWhitespace (c : Char) : Bool :=
  c = ' ' || c = '\t' || c = '\n' || c = '\r' || c = '\x0b' || c = '\x0c'

/-- `s.trim()`: remove leading and trailing whitespace. -/
def jsTrim (s : JsStr) : JsStr :=
  ((s.dropWhile jsWhitespace).reverse.dropWhile jsWhitespace).reverse

/-- A line is blank (falsy under `line.trim()`) when its trim is empty. -/
def isBlank (s : JsStr) : Bool :=
  (jsTrim s).isEmpty

/-- `s.split("\n")`: split a string at every newline; a string with `k`
newlines yields `k+1` (possibly empty) segments. -/
def splitNl : JsStr → List JsStr
  | [] => [[]]
  | c :: rest =>
    let r := splitNl rest
    if c = '\n' then [] :: r
    else (c :: r.headI) :: r.tail

/-- `chunk.split("\n").filter((line) => line.trim())`, the per-chunk line
extraction used verbatim by both the relay read loop
(`route.ts`, line 56) and the client read loop (`useChat.tsx`, line 322). -/
def chunkLines (chunk : JsStr) : List JsStr :=
  (splitNl chunk).filter (fun l => !isBlank l)

/-- The line sequence the relay read loop actually produces for a chunked
stream: each chunk is split and filtered independently — the code keeps
no pending-fragment buffer across `reader.read()` results. -/
def relayLines (chunks : List JsStr) : List JsStr :=
  chunks.flatMap chunkLines

/-- The reference framing of the specification: split the unbroken
concatenated text on `\n` (with the same blank-line filter). -/
def unbrokenLines (chunks : List JsStr) : List JsStr :=
  chunkLines chunks.flatten

/-- `s.includes(pat)` helper: does `pat` occur at the start of `s`? -/
def jsStartsWith : JsStr → JsStr → Bool
  | [], _ => true
  | _ :: _, [] => false
  | p :: ps, c :: cs => p = c && jsStartsWith ps cs

/-- `s.includes(pat)`: does `pat` occur anywhere inside `s`? -/
def jsIncludes (pat : JsStr) : JsStr → Bool
  | [] => pat.isEmpty
  | c :: cs => jsStartsWith pat (c :: cs) || jsIncludes pat (cs)

/-! ## Upstream protocol and the relay (`src/app/api/chat/route.ts`) -/

/-- One parsed upstream JSON record (`data` in the relay loop): the
fields the relay reads.  `message_content` is `data.message?.content`
(`none` when the `message` object or its `content` field is absent);
`done` is whether `data.done === true`; the five counters are the numeric
statistics of the final Ollama record, each individually optional. -/
structure UpstreamData where
  message_content : Option JsStr
  done : Bool
  eval_count : Option Nat
  eval_duration : Option Nat
  prompt_eval_count : Option Nat
  prompt_eval_duration : Option Nat
  total_duration : Option Nat
deriving DecidableEq, Repr

/-- The raw statistics object the relay builds at `route.ts` lines 77–83:
the five upstream counters, copied as-is (absent fields stay absent). -/
structure StreamStats where
  eval_count : Option Nat
  eval_duration : Option Nat
  prompt_eval_count : Option Nat
  prompt_eval_duration : Option Nat
  total_duration : Option Nat
deriving DecidableEq, Repr

/-- The client-facing wire frame (`interface StreamResponse` in
`route.ts`): a content string plus an optional stats object. -/
structure StreamResponse where
  content : JsStr
  stats : Option StreamStats
deriving DecidableEq, Repr

/-- The stats object copied from an upstream record (`route.ts` 77–83). -/
def statsOfData (d : UpstreamData) : StreamStats :=
  ⟨d.eval_count, d.eval_duration, d.prompt_eval_count,
    d.prompt_eval_duration, d.total_duration⟩

/-- The terminal stats frame the relay enqueues for a `done` record
(`route.ts` 85–91). -/
def statsFrameOf (d : UpstreamData) : StreamResponse :=
  ⟨[], some (statsOfData d)⟩

/-- The loop body `for (const line of lines) { ... }` of the relay, for
one successfully parsed record (`route.ts` 58–96): a frame with the
content delta when `data.message?.content` is truthy (present and
non-empty), then the terminal stats frame when `data.done === true`. -/
def relayFramesOfData (d : UpstreamData) : List StreamResponse :=
  (match d.message_content with
    | some c => if c.isEmpty then [] else [⟨c, none⟩]
    | none => []) ++
  (if d.done then [statsFrameOf d] else [])

/-- The downstream frame sequence the relay emits for an ordered sequence
of parsed upstream records (unparseable lines are skipped by the
`catch {}` at `route.ts` 93–95 and produce no record). -/
def relayFrames (records : List UpstreamData) : List StreamResponse :=
  records.flatMap relayFramesOfData

/-- Does a wire frame carry a stats object? -/
def isStatsFrame (f : StreamResponse) : Bool :=
  f.stats.isSome

/-! ## Client-side statistics (`useChat.tsx` 340–367) -/

/-- `Math.round(x)` for the nonnegative finite values arising here:
floor of `x + 1/2`. -/
def jsMathRound (q : ℚ) : ℤ :=
  ⌊q + 1 / 2⌋

/-- `Math.round(x * 10) / 10`: round to one decimal place. -/
def round1 (q : ℚ) : ℚ :=
  (jsMathRound (q * 10) : ℚ) / 10

/-- `data.stats.eval_duration ? data.stats.eval_count /
(data.stats.eval_duration / 1e9) : undefined` — the raw throughput.
The `undefined` duration and the falsy duration `0` give `undefined`;
an absent count with a nonzero duration gives `NaN` in JavaScript, which
is falsy at the only use site, so it is embedded as `none` as well. -/
def rawPerSecond (count dur : Option Nat) : Option ℚ :=
  match dur with
  | none => none
  | some d =>
    if d = 0 then none
    else
      match count with
      | none => none
      | some c => some ((c : ℚ) / ((d : ℚ) / 1e9))

/-- `raw ? Math.round(raw * 10) / 10 : undefined`: the stored throughput
field — absent whenever the raw value is falsy (`undefined`, `NaN`
or `0`). -/
def roundedPerSecond (count dur : Option Nat) : Option ℚ :=
  match rawPerSecond count dur with
  | none => none
  | some q => if q = 0 then none else some (round1 q)

/-- `dur ? dur / 1e9 : undefined`: nanoseconds to seconds, absent for an
absent or zero duration. -/
def secondsOf (dur : Option Nat) : Option ℚ :=
  match dur with
  | none => none
  | some d => if d = 0 then none else some ((d : ℚ) / 1e9)

/-- The derived statistics the client stores on a finished assistant turn
(`interface ChatStats` in `types/chat`, computed at `useChat.tsx`
350–365). -/
structure ChatStats where
  tokensPerSecond : Option ℚ
  promptTokensPerSecond : Option ℚ
  totalTokens : Option Nat
  promptTokens : Option Nat
  generationTime : Option ℚ
  totalTime : Option ℚ
deriving DecidableEq, Repr

/-- The empty stats object `{}` that initializes the `stats` local. -/
def emptyChatStats : ChatStats :=
  ⟨none, none, none, none, none, none⟩

/-- The client computation of `ChatStats` from a received raw stats
object (`useChat.tsx` 341–365; the identical code appears in
`page.tsx`). -/
def computeChatStats (s : StreamStats) : ChatStats where
  tokensPerSecond := roundedPerSecond s.eval_count s.eval_duration
  promptTokensPerSecond := roundedPerSecond s.prompt_eval_count s.prompt_eval_duration
  totalTokens := s.eval_count
  promptTokens := s.prompt_eval_count
  generationTime := secondsOf s.eval_duration
  totalTime := secondsOf s.total_duration

/-! ## Wire-level JSON views of the terminal stats frame

`JSON.stringify` drops `undefined`-valued properties, so the serialized
stats object is the ordered list of its present key/value pairs. -/

/-- Key/value contribution of one optional rational field. -/
def optKV (k : String) : Option ℚ → List (JsStr × ℚ)
  | some q => [(k.data, q)]
  | none => []

/-- Key/value contribution of one optional integer field. -/
def optNatKV (k : String) : Option Nat → List (JsStr × ℚ)
  | some n => [(k.data, (n : ℚ))]
  | none => []

/-- The serialized form of the stats object the relay actually sends
(`route.ts` 77–91): the raw upstream counters, in object-literal order. -/
def statsKV (s : StreamStats) : List (JsStr × ℚ) :=
  optNatKV "eval_count" s.eval_count ++
  optNatKV "eval_duration" s.eval_duration ++
  optNatKV "prompt_eval_count" s.prompt_eval_count ++
  optNatKV "prompt_eval_duration" s.prompt_eval_duration ++
  optNatKV "total_duration" s.total_duration

/-! ## Conversation data model (`types/chat`) -/

/-- Chat roles. -/
inductive Role where
  | user
  | assistant
  | system
deriving DecidableEq, Repr

/-- A conversation turn (`interface ChatMessage`).  The optional
`timestamp` of the TypeScript type is omitted: no code in the repository
ever writes it. -/
structure ChatMessage where
  role : Role
  content : JsStr
  model : Option JsStr := none
  stats : Option ChatStats := none
deriving DecidableEq, Repr

/-! ## Client stream consumer (`useChat.tsx`, `sendMessageCore`) -/

/-- One parsed line of the relay stream as the client reads it
(`data` at `useChat.tsx` 326): `data.content` and `data.stats`. -/
structure ClientData where
  content : Option JsStr
  stats : Option StreamStats
deriving DecidableEq, Repr

/-- The mutable locals of the client read loop (`useChat.tsx` 313–315):
the accumulated `content`, the last computed `stats` (initially the
empty object `{}`), and the `hasReceivedContent` flag. -/
structure StreamAcc where
  content : JsStr
  stats : ChatStats
  hasReceivedContent : Bool
deriving DecidableEq, Repr

/-- Initial loop state: `content = ""`, `stats = {}`,
`hasReceivedContent = false`. -/
def initAcc : StreamAcc :=
  ⟨[], emptyChatStats, false⟩

/-- The client loop body for one parsed line (`useChat.tsx` 328–367):
a truthy `data.content` is appended and sets `hasReceivedContent`; a
present `data.stats` replaces the stats with the computed `ChatStats`. -/
def consumeData (acc : StreamAcc) (d : ClientData) : StreamAcc :=
  let acc1 :=
    match d.content with
    | some c =>
      if c.isEmpty then acc
      else ⟨acc.content ++ c, acc.stats, true⟩
    | none => acc
  match d.stats with
  | some s => ⟨acc1.content, computeChatStats s, acc1.hasReceivedContent⟩
  | none => acc1

/-- How the client read ends: a normal close (`done` from the reader), a
thrown read/network error with the given message (name ≠ `AbortError`),
or an abort (`AbortError` from cancellation). -/
inductive StreamEnd where
  | closed
  | readError (msg : JsStr)
  | aborted
deriving DecidableEq, Repr

/-- `parseOllamaError` (`utils/errorHandler.ts`), restricted to the
`Error`-instance branch (everything the consumer throws or receives is
an `Error`): pattern-match the message, else return it unchanged. -/
def parseOllamaErrorMessage (msg : JsStr) : JsStr :=
  if jsIncludes "ECONNREFUSED".data msg then "Cannot connect to Ollama".data
  else if jsIncludes "model not found".data msg then "Model not found".data
  else if jsIncludes "timeout".data msg then "Request timed out".data
  else msg

/-- `maxRetries` (`useChat.tsx` line 73). -/
def maxRetries : Nat := 3

/-- The content of the error turn the consumer appends in its `catch`
block (`useChat.tsx` 421–432): the parsed error message behind an error
marker, plus a retry hint while retries remain.  Note it does not
mention the accumulated partial content. -/
def errorTurnContent (retryCount : Nat) (msg : JsStr) : JsStr :=
  "⚠️ Error: ".data ++ parseOllamaErrorMessage msg ++
    (if retryCount < maxRetries then
      "\n\n*You can retry this message using Ctrl+R*".data
    else [])

/-- Outcome of one `sendMessageCore` stream consumption: the final
message list, whether an error toast was raised, and whether the failure
path ran (`setLastFailedMessage`). -/
structure ConsumerOutcome where
  messages : List ChatMessage
  errorToast : Bool
  failed : Bool
deriving DecidableEq, Repr

/-- `sendMessageCore` from the successful `fetch` onwards
(`useChat.tsx` 311–451), as a function of the parsed frames the loop
processes and how the stream ends.

* `aborted`: the `catch` recognizes `AbortError` and returns — no turn
  is appended here (cancellation is finalized by `cancelGeneration`).
* `readError`: the `catch` appends an error turn built solely from the
  error message — the accumulated content is not consulted.
* `closed`: if no truthy content delta arrived, the loop falls into
  `throw new Error("No content received from the model")`, landing in
  the same `catch`; otherwise the accumulated content and last stats
  become the finalized assistant turn. -/
def sendMessageCoreStream (newMessages : List ChatMessage) (selectedModel : JsStr)
    (retryCount : Nat) (frames : List ClientData) (ending : StreamEnd) :
    ConsumerOutcome :=
  match ending with
  | .aborted => ⟨newMessages, false, false⟩
  | .readError msg =>
    ⟨newMessages ++
      [⟨.assistant, errorTurnContent retryCount msg, some selectedModel, none⟩],
      true, true⟩
  | .closed =>
    let acc := frames.foldl consumeData initAcc
    if acc.hasReceivedContent then
      ⟨newMessages ++ [⟨.assistant, acc.content, some selectedModel, some acc.stats⟩],
        false, false⟩
    else
      ⟨newMessages ++
        [⟨.assistant,
          errorTurnContent retryCount "No content received from the model".data,
          some selectedModel, none⟩],
        true, true⟩

/-! ## Toasts and cancellation (`useChat.tsx`, `cancelGeneration`) -/

/-- Toast severities of `addToast`. -/
inductive ToastType where
  | success
  | error
  | warning
  | info
deriving DecidableEq, Repr

/-- A user notification. -/
structure Toast where
  message : JsStr
  type : ToastType
deriving DecidableEq, Repr

/-- `cancelGeneration` (`useChat.tsx` 185–212), as a function of whether
an abort controller is active, the current message list, the live
`streamingContent`, and the selected model.  Returns the new message
list and the toasts raised.  When the controller is active and streaming
content is truthy (non-empty), the content suffixed with
`" [Generation cancelled]"` is finalized as an assistant turn; in every
active case only an info toast is raised. -/
def cancelGeneration (hasActiveController : Bool) (messages : List ChatMessage)
    (streamingContent : JsStr) (selectedModel : JsStr) :
    List ChatMessage × List Toast :=
  if hasActiveController then
    (if streamingContent.isEmpty then messages
     else messages ++
       [⟨.assistant, streamingContent ++ " [Generation cancelled]".data,
         some selectedModel, none⟩],
     [⟨"Generation cancelled".data, .info⟩])
  else (messages, [])

/-! ## Persistence (`ChatStorage`)

`localStorage` holds one JSON blob under a fixed key.  The blob is the
serialization of a plain data object, and `JSON.parse ∘ JSON.stringify`
is the identity on such objects, so the storage cell is embedded as the
structured value `Option StoredData` directly.  The two host aspects the
code interacts with — the serialized length used for the size check, and
the quota at which `setItem` throws `QuotaExceededError` — are passed in
explicitly (`serLen`, `quota`). -/

/-- The versioned blob (`interface StoredData` in the storage module). -/
structure StoredData where
  version : Nat
  messages : List ChatMessage
  model : JsStr
  timestamp : Nat
deriving DecidableEq, Repr

/-- `STORAGE_VERSION = 1`. -/
def STORAGE_VERSION : Nat := 1

/-- `MAX_STORAGE_SIZE = 5 * 1024 * 1024`. -/
def MAX_STORAGE_SIZE : Nat := 5 * 1024 * 1024

/-- `array.slice(-k)`: the last `k` elements — except that `k = 0` gives
`slice(-0) = slice(0)`, the whole array. -/
def sliceLast {α : Type} (k : Nat) (l : List α) : List α :=
  if k = 0 then l else l.drop (l.length - k)

/-- `ChatStorage.save` (storage module, lines 15–60): build the blob;
if its serialization exceeds `MAX_STORAGE_SIZE`, keep only the most
recent half of the messages; store.  If `setItem` throws
`QuotaExceededError` (the serialization exceeds the quota), retry with
only the last 10 messages; if even that fails, leave the cell unchanged
and report failure. -/
def ChatStorage.save (serLen : StoredData → Nat) (quota : Nat)
    (cell : Option StoredData) (messages : List ChatMessage) (model : JsStr)
    (now : Nat) : Option StoredData × Bool :=
  let data : StoredData := ⟨STORAGE_VERSION, messages, model, now⟩
  let data' :=
    if serLen data > MAX_STORAGE_SIZE then
      ⟨STORAGE_VERSION, sliceLast (messages.length / 2) messages, model, now⟩
    else data
  if serLen data' ≤ quota then (some data', true)
  else
    let retry : StoredData := ⟨STORAGE_VERSION, sliceLast 10 messages, model, now⟩
    if serLen retry ≤ quota then (some retry, true)
    else (cell, false)

/-- `ChatStorage.load` (storage module, lines 62–93): an absent blob
gives `null`; a version mismatch clears the cell and gives `null`;
otherwise the stored messages and model are returned.  (The
`Array.isArray` structural check always passes for a value of the
embedded type, and `JSON.parse` of a value stored by `save` cannot
throw.)  Returns the result and the cell after any clearing. -/
def ChatStorage.load (cell : Option StoredData) :
    Option (List ChatMessage × Option JsStr) × Option StoredData :=
  match cell with
  | none => (none, none)
  | some d =>
    if d.version ≠ STORAGE_VERSION then (none, none)
    else (some (d.messages, some d.model), some d)

/-! ## Message edit and delete (`useChat.tsx` 215–251) -/

/-- The hook state these actions touch: the message list, the storage
cell and the toasts raised so far. -/
structure HookState where
  messages : List ChatMessage
  cell : Option StoredData
  toasts : List Toast
deriving DecidableEq, Repr

/-- `editMessage(index, newContent)` (`useChat.tsx` 215–233): out-of-range
indices return before touching anything; otherwise the indexed message
content is replaced, the list saved, and a success toast raised.
The index is an arbitrary JavaScript integer, hence `ℤ`. -/
def editMessage (serLen : StoredData → Nat) (quota : Nat) (now : Nat)
    (selectedModel : JsStr) (st : HookState) (index : ℤ) (newContent : JsStr) :
    HookState :=
  if index < 0 ∨ (st.messages.length : ℤ) ≤ index then st
  else
    let updatedMessages := st.messages.enum.map
      (fun p => if (p.1 : ℤ) = index then
          ⟨p.2.role, newContent, p.2.model, p.2.stats⟩
        else p.2)
    let saved := ChatStorage.save serLen quota st.cell updatedMessages selectedModel now
    ⟨updatedMessages, saved.1, st.toasts ++ [⟨"Message edited".data, .success⟩]⟩

/-- `deleteMessage(index)` (`useChat.tsx` 236–251): out-of-range indices
return before touching anything; otherwise the indexed message is
removed, the list saved, and a success toast raised. -/
def deleteMessage (serLen : StoredData → Nat) (quota : Nat) (now : Nat)
    (selectedModel : JsStr) (st : HookState) (index : ℤ) : HookState :=
  if index < 0 ∨ (st.messages.length : ℤ) ≤ index then st
  else
    let updatedMessages :=
      (st.messages.enum.filter (fun p => (p.1 : ℤ) ≠ index)).map Prod.snd
    let saved := ChatStorage.save serLen quota st.cell updatedMessages selectedModel now
    ⟨updatedMessages, saved.1, st.toasts ++ [⟨"Message deleted".data, .success⟩]⟩

/-! ## Relay request construction (`route.ts` 14–37) -/

/-- The parsed body of a `POST /chat` request: `messages`, an optional
`model`, an optional `systemPrompt`. -/
structure ChatRequestBody where
  messages : List ChatMessage
  model : Option JsStr
  systemPrompt : Option JsStr
deriving DecidableEq, Repr

/-- The JSON body of the upstream `fetch` (`route.ts` 32–36). -/
structure UpstreamChatRequest where
  model : JsStr
  messages : List ChatMessage
  stream : Bool
deriving DecidableEq, Repr

/-- How `POST` builds the upstream request: the destructuring default
`model = "llama3.1:8b"` applies when the field is absent; a truthy
(present, non-empty) `systemPrompt` is prepended as a synthetic system
turn; `stream` is always `true`. -/
def upstreamRequestOf (body : ChatRequestBody) : UpstreamChatRequest where
  model := body.model.getD "llama3.1:8b".data
  messages :=
    match body.systemPrompt with
    | some sp =>
      if sp.isEmpty then body.messages
      else ⟨.system, sp, none, none⟩ :: body.messages
    | none => body.messages
  stream := true

/-- Is `data.content` truthy (present and non-empty) for a parsed client
line?  This is the condition guarding `hasReceivedContent = true`. -/
def truthyContent (d : ClientData) : Bool :=
  match d.content with
  | some c => !c.isEmpty
  | none => false

/-- Modelled from the spec (§3): "throughput fields are
`count / (duration_nanoseconds / 1e9)`, rounded to one decimal place;
absent when the underlying duration is zero/undefined".  Stated for a
present count, as in the §8 example; for comparison with
`roundedPerSecond`. -/
def specThroughputField (count : Nat) (dur : Option Nat) : Option ℚ :=
  match dur with
  | none => none
  | some d =>
    if d = 0 then none
    else some (round1 ((count : ℚ) / ((d : ℚ) / 1e9)))

/-- Modelled from the spec (§3): `generationTimeSeconds` and
`totalTimeSeconds` — the duration converted to seconds, present whenever
the duration field exists (§3 attaches the absence-on-zero condition
only to the throughput fields). -/
def specSeconds (dur : Option Nat) : Option ℚ :=
  dur.map (fun d => (d : ℚ) / 1e9)

/-- Modelled from the spec (§3, §8): the serialized stats object the
spec says the relay terminal frame carries — the `GenerationStats`
computed by the §3 formulas (`specThroughputField`, `specSeconds`)
directly from the upstream counters, under the field names of the §8
example (`tokensPerSecond`, `totalTokens`, `generationTimeSeconds`,
...).  No such computation exists in `route.ts`; this definition follows
the words of the spec for comparison with `statsKV`. -/
def specTerminalStatsKV (s : StreamStats) : List (JsStr × ℚ) :=
  (match s.eval_count with
    | some c => optKV "tokensPerSecond" (specThroughputField c s.eval_duration)
    | none => []) ++
  (match s.prompt_eval_count with
    | some c =>
      optKV "promptTokensPerSecond" (specThroughputField c s.prompt_eval_duration)
    | none => []) ++
  optNatKV "totalTokens" s.eval_count ++
  optNatKV "promptTokens" s.prompt_eval_count ++
  optKV "generationTimeSeconds" (specSeconds s.eval_duration) ++
  optKV "totalTimeSeconds" (specSeconds s.total_duration)

/-! # Theorems -/

/-! ## General lemmas about the relay frame stream -/

theorem relayFrames_append (xs ys : List UpstreamData) :
    relayFrames (xs ++ ys) = relayFrames xs ++ relayFrames ys := by
  simp [relayFrames]

theorem isStatsFrame_statsFrameOf (d : UpstreamData) :
    isStatsFrame (statsFrameOf d) = true := rfl

theorem filter_stats_relayFramesOfData_of_not_done (r : UpstreamData)
    (h : r.done = false) :
    (relayFramesOfData r).filter isStatsFrame = [] := by
  unfold relayFramesOfData
  rw [h]
  cases hm : r.message_content with
  | none => simp
  | some c =>
    by_cases hc : c.isEmpty <;> simp [hc, isStatsFrame]

theorem filter_stats_relayFrames_of_no_done (rs : List UpstreamData)
    (h : ∀ r ∈ rs, r.done = false) :
    (relayFrames rs).filter isStatsFrame = [] := by
  induction rs with
  | nil => rfl
  | cons r rs ih =>
    have hr : relayFrames (r :: rs) = relayFramesOfData r ++ relayFrames rs := by
      simp [relayFrames]
    rw [hr, List.filter_append,
      filter_stats_relayFramesOfData_of_not_done r (h r (by simp)),
      ih (fun x hx => h x (by simp [hx]))]
    rfl

theorem relayFramesOfData_done_eq (r : UpstreamData) (h : r.done = true) :
    relayFramesOfData r =
      (match r.message_content with
        | some c => if c.isEmpty then [] else [⟨c, none⟩]
        | none => []) ++ [statsFrameOf r] := by
  unfold relayFramesOfData
  rw [h]
  simp

/-- C7: for any upstream session whose records all precede a single
terminal `done` record, the relay emits exactly one stats frame, and it
is the final frame (carrying the counters of the `done` record); and for
any session cut short before a `done` record (mid-stream error or
cancellation), no stats frame is ever emitted. -/
theorem relay_stats_frame_exactly_once_and_last :
    (∀ pre last, (∀ r ∈ pre, r.done = false) → last.done = true →
      ((relayFrames (pre ++ [last])).filter isStatsFrame).length = 1 ∧
      (relayFrames (pre ++ [last])).getLast? = some (statsFrameOf last)) ∧
    (∀ rs, (∀ r ∈ rs, r.done = false) →
      (relayFrames rs).filter isStatsFrame = []) := by
  constructor
  · intro pre last hpre hlast
    have h1 : relayFrames (pre ++ [last]) =
        relayFrames pre ++ relayFramesOfData last := by
      rw [relayFrames_append]
      simp [relayFrames]
    have h2 := relayFramesOfData_done_eq last hlast
    constructor
    · rw [h1, List.filter_append,
        filter_stats_relayFrames_of_no_done pre hpre, h2, List.filter_append]
      cases hm : last.message_content with
      | none => simp [isStatsFrame, statsFrameOf]
      | some c => by_cases hc : c.isEmpty <;> simp [hc, isStatsFrame, statsFrameOf]
    · rw [h1, h2, ← List.append_assoc]
      exact List.getLast?_concat _
  · exact filter_stats_relayFrames_of_no_done

/-- Witness for C7: the §8 example session — two content deltas then the
terminal record with `eval_count 5`, `eval_duration 2·10⁹` — yields
exactly one stats frame, placed last; and the same session cut off
before the terminal record yields none. -/
theorem relay_stats_frame_exactly_once_and_last_witness :
    (((relayFrames
      [⟨some "Hel".data, false, none, none, none, none, none⟩,
       ⟨some "lo".data, false, none, none, none, none, none⟩,
       ⟨none, true, some 5, some 2000000000, none, none, none⟩]).filter
        isStatsFrame).length = 1 ∧
     (relayFrames
      [⟨some "Hel".data, false, none, none, none, none, none⟩,
       ⟨some "lo".data, false, none, none, none, none, none⟩,
       ⟨none, true, some 5, some 2000000000, none, none, none⟩]).getLast? =
        some (statsFrameOf ⟨none, true, some 5, some 2000000000, none, none, none⟩)) ∧
    (relayFrames
      [⟨some "Hel".data, false, none, none, none, none, none⟩,
       ⟨some "lo".data, false, none, none, none, none, none⟩]).filter
        isStatsFrame = [] := by
  constructor
  · exact relay_stats_frame_exactly_once_and_last.1
      [⟨some "Hel".data, false, none, none, none, none, none⟩,
       ⟨some "lo".data, false, none, none, none, none, none⟩]
      ⟨none, true, some 5, some 2000000000, none, none, none⟩
      (by decide) rfl
  · exact relay_stats_frame_exactly_once_and_last.2
      [⟨some "Hel".data, false, none, none, none, none, none⟩,
       ⟨some "lo".data, false, none, none, none, none, none⟩]
      (by decide)

/-- C1: the relay read loop splits each chunk in isolation, with no
pending-fragment buffer — so a line split across a chunk boundary is
emitted as two separate truncated lines instead of one complete line.
For the upstream text `"abc\n"` delivered as the chunks `"ab"` and
`"c\n"`, the code frames `["ab", "c"]` while splitting the unbroken text
frames `["abc"]`.  This falsifies the frame-reassembly property the
specification demands of the Line Framer. -/
theorem relay_framing_drops_split_lines :
    relayLines ["ab".data, "c\n".data] = ["ab".data, "c".data] ∧
    unbrokenLines ["ab".data, "c\n".data] = ["abc".data] ∧
    relayLines ["ab".data, "c\n".data] ≠ unbrokenLines ["ab".data, "c\n".data] :=
  ⟨by decide, by decide, by decide⟩

/-- C9: the relay forwards the request model unchanged when one is
supplied, and substitutes the destructuring default `"llama3.1:8b"` when
the field is absent — independently of the messages and the system
prompt. -/
theorem upstream_model_default_and_forwarding :
    (∀ msgs sp, (upstreamRequestOf ⟨msgs, none, sp⟩).model = "llama3.1:8b".data) ∧
    (∀ msgs m sp, (upstreamRequestOf ⟨msgs, some m, sp⟩).model = m) :=
  ⟨fun _ _ => rfl, fun _ _ _ => rfl⟩

/-- C10: for an index outside `[0, messages.length)`, both `editMessage`
and `deleteMessage` return before doing anything: the message list, the
storage cell and the toast log are all left exactly as they were. -/
theorem edit_delete_out_of_range_noop (serLen : StoredData → Nat)
    (quota now : Nat) (selectedModel : JsStr) (st : HookState) (index : ℤ)
    (newContent : JsStr)
    (h : index < 0 ∨ (st.messages.length : ℤ) ≤ index) :
    editMessage serLen quota now selectedModel st index newContent = st ∧
    deleteMessage serLen quota now selectedModel st index = st := by
  unfold editMessage deleteMessage
  rw [if_pos h, if_pos h]
  exact ⟨rfl, rfl⟩

/-- Witness for C10: on a two-message conversation, index `2` (one past
the end) leaves the state untouched under both actions. -/
theorem edit_delete_out_of_range_noop_witness :
    editMessage (fun _ => 0) 0 0 "llama3.1:8b".data
      ⟨[⟨.user, "hi".data, none, none⟩, ⟨.assistant, "ok".data, none, none⟩],
        none, []⟩ 2 "new".data
      = ⟨[⟨.user, "hi".data, none, none⟩, ⟨.assistant, "ok".data, none, none⟩],
        none, []⟩ ∧
    deleteMessage (fun _ => 0) 0 0 "llama3.1:8b".data
      ⟨[⟨.user, "hi".data, none, none⟩, ⟨.assistant, "ok".data, none, none⟩],
        none, []⟩ 2
      = ⟨[⟨.user, "hi".data, none, none⟩, ⟨.assistant, "ok".data, none, none⟩],
        none, []⟩ :=
  edit_delete_out_of_range_noop (fun _ => 0) 0 0 "llama3.1:8b".data
    ⟨[⟨.user, "hi".data, none, none⟩, ⟨.assistant, "ok".data, none, none⟩],
      none, []⟩ 2 "new".data (Or.inr (by decide))

/-! ## Client consumer lemmas -/

theorem consumeData_hasReceivedContent_of_not_truthy (acc : StreamAcc)
    (d : ClientData) (h : truthyContent d = false) :
    (consumeData acc d).hasReceivedContent = acc.hasReceivedContent := by
  unfold consumeData truthyContent at *
  cases hc : d.content with
  | none => cases d.stats <;> simp
  | some c =>
    rw [hc] at h
    simp at h
    cases d.stats <;> simp [h]

theorem foldl_consumeData_hasReceivedContent (frames : List ClientData) :
    ∀ acc : StreamAcc, (∀ d ∈ frames, truthyContent d = false) →
      (frames.foldl consumeData acc).hasReceivedContent =
        acc.hasReceivedContent := by
  induction frames with
  | nil => intro acc _; rfl
  | cons d frames ih =>
    intro acc h
    rw [List.foldl_cons, ih (consumeData acc d) (fun x hx => h x (by simp [hx])),
      consumeData_hasReceivedContent_of_not_truthy acc d (h d (by simp))]

theorem errorTurnContent_ne_nil (retryCount : Nat) (msg : JsStr) :
    errorTurnContent retryCount msg ≠ [] := by
  unfold errorTurnContent
  intro h
  rw [List.append_assoc] at h
  have h1 : "⚠️ Error: ".data ≠ [] := by decide
  exact h1 (List.append_eq_nil.mp h).1

/-- C3: if the stream closes without any truthy content delta (in
particular a stream carrying only the terminal `done` frame) and no
cancellation is in effect, `sendMessageCore` takes the failure path —
`throw new Error("No content received from the model")` — raising an
error toast and appending an error-marker turn, never a blank assistant
turn: the one appended turn has the non-empty error text as content. -/
theorem empty_completion_is_error (newMessages : List ChatMessage)
    (selectedModel : JsStr) (retryCount : Nat) (frames : List ClientData)
    (h : ∀ d ∈ frames, truthyContent d = false) :
    (sendMessageCoreStream newMessages selectedModel retryCount frames
        .closed).failed = true ∧
    (sendMessageCoreStream newMessages selectedModel retryCount frames
        .closed).errorToast = true ∧
    (sendMessageCoreStream newMessages selectedModel retryCount frames
        .closed).messages =
      newMessages ++
        [⟨.assistant,
          errorTurnContent retryCount "No content received from the model".data,
          some selectedModel, none⟩] ∧
    errorTurnContent retryCount "No content received from the model".data
      ≠ [] := by
  have hrc : (frames.foldl consumeData initAcc).hasReceivedContent = false :=
    foldl_consumeData_hasReceivedContent frames initAcc h
  refine ⟨?_, ?_, ?_, errorTurnContent_ne_nil _ _⟩ <;>
    simp [sendMessageCoreStream, hrc]

/-- Witness for C3: a stream consisting solely of the terminal stats
frame (the §8 example counters) ends in the failure path with the
error-marker turn appended and no blank assistant turn. -/
theorem empty_completion_is_error_witness :
    (sendMessageCoreStream [⟨.user, "hi".data, none, none⟩] "llama3.1:8b".data 0
        [⟨some [], some ⟨some 5, some 2000000000, none, none, none⟩⟩]
        .closed).failed = true ∧
    (sendMessageCoreStream [⟨.user, "hi".data, none, none⟩] "llama3.1:8b".data 0
        [⟨some [], some ⟨some 5, some 2000000000, none, none, none⟩⟩]
        .closed).errorToast = true ∧
    (sendMessageCoreStream [⟨.user, "hi".data, none, none⟩] "llama3.1:8b".data 0
        [⟨some [], some ⟨some 5, some 2000000000, none, none, none⟩⟩]
        .closed).messages =
      [⟨.user, "hi".data, none, none⟩] ++
        [⟨.assistant,
          errorTurnContent 0 "No content received from the model".data,
          some "llama3.1:8b".data, none⟩] ∧
    errorTurnContent 0 "No content received from the model".data ≠ [] :=
  empty_completion_is_error [⟨.user, "hi".data, none, none⟩] "llama3.1:8b".data 0
    [⟨some [], some ⟨some 5, some 2000000000, none, none, none⟩⟩] (by decide)

/-- Counterexample to C4 as stated: at `N = 0` deltas the live
`streamingContent` is the empty string, which is falsy, so
`cancelGeneration` skips the finalization block entirely — no assistant
turn is appended at all (the message list is returned unchanged), where
the claim demands a finalized turn for every `N ≥ 0`. -/
theorem cancel_zero_deltas_appends_no_turn :
    cancelGeneration true [⟨.user, "hi".data, none, none⟩] []
        "llama3.1:8b".data =
      ([⟨.user, "hi".data, none, none⟩],
        [⟨"Generation cancelled".data, .info⟩]) := by
  decide

/-- C4 (amended): for a cancellation after `N ≥ 1` content deltas,
`cancelGeneration` finalizes exactly one assistant turn whose content is
the concatenation of the deltas suffixed with `" [Generation cancelled]"`,
and the only notification raised is an info toast — no error.  (For
`N = 0` no turn is appended; see the counterexample.) -/
theorem cancel_preserves_partial_output (messages : List ChatMessage)
    (deltas : List JsStr) (selectedModel : JsStr)
    (h1 : deltas ≠ []) (h2 : ∀ d ∈ deltas, d ≠ []) :
    cancelGeneration true messages deltas.flatten selectedModel =
      (messages ++
        [⟨.assistant, deltas.flatten ++ " [Generation cancelled]".data,
          some selectedModel, none⟩],
        [⟨"Generation cancelled".data, .info⟩]) := by
  have hne : deltas.flatten ≠ [] := by
    intro h
    rcases List.exists_mem_of_ne_nil deltas h1 with ⟨d, hd⟩
    exact h2 d hd (List.flatten_eq_nil_iff.mp h d hd)
  unfold cancelGeneration
  rw [if_pos rfl]
  simp [List.isEmpty_iff, hne]

/-- Witness for C4: cancelling after the deltas `"Hel"`, `"lo"` appends
the single turn `"Hello [Generation cancelled]"` with only an info
toast. -/
theorem cancel_preserves_partial_output_witness :
    cancelGeneration true [⟨.user, "hi".data, none, none⟩]
        (["Hel".data, "lo".data] : List JsStr).flatten "llama3.1:8b".data =
      ([⟨.user, "hi".data, none, none⟩] ++
        [⟨.assistant,
          (["Hel".data, "lo".data] : List JsStr).flatten ++
            " [Generation cancelled]".data,
          some "llama3.1:8b".data, none⟩],
        [⟨"Generation cancelled".data, .info⟩]) :=
  cancel_preserves_partial_output [⟨.user, "hi".data, none, none⟩]
    ["Hel".data, "lo".data] "llama3.1:8b".data (by decide) (by decide)

/-- Counterexample to C5 as stated: after the delta `"Hel"` arrives, a
mid-stream read error makes the `catch` block append a turn built only
from the error message — the captured partial content `"Hel"` does not
occur in the appended turn at all. -/
theorem midstream_error_discards_partial :
    (sendMessageCoreStream [] "llama3.1:8b".data 0
        [⟨some "Hel".data, none⟩]
        (.readError "fetch failed".data)).messages =
      [⟨.assistant, errorTurnContent 0 "fetch failed".data,
        some "llama3.1:8b".data, none⟩] ∧
    jsIncludes "Hel".data (errorTurnContent 0 "fetch failed".data) = false :=
  ⟨rfl, by decide⟩

/-- C5 (amended): on a mid-stream read error (not an abort) the consumer
appends exactly one assistant turn whose content is the error annotation
alone, built from the thrown message — whatever partial content the
frames carried is not included in the finalized turn (it was only ever
published to the live streaming view, which matches §4.5 of the spec:
content replaced with an error description).  The outcome is the same
for every frame sequence. -/
theorem midstream_error_turn_is_annotation_only (newMessages : List ChatMessage)
    (selectedModel : JsStr) (retryCount : Nat) (frames : List ClientData)
    (msg : JsStr) :
    sendMessageCoreStream newMessages selectedModel retryCount frames
        (.readError msg) =
      ⟨newMessages ++
        [⟨.assistant, errorTurnContent retryCount msg, some selectedModel, none⟩],
        true, true⟩ :=
  rfl

/-- Counterexample to C2 as stated: for the §8 example terminal record
(`done:true`, `eval_count 5`, `eval_duration 2·10⁹`) the relay does emit
exactly one terminal frame with empty content — but its `stats` field is
the *raw* upstream counter object, serialized as
`eval_count`/`eval_duration` pairs.  It carries no `tokensPerSecond`,
`totalTokens` or `generationTimeSeconds` field at all: the computed
`GenerationStats` the claim describes never appears on the relay wire
(its key set differs from the actual frame). -/
theorem relay_terminal_stats_not_generation_stats :
    relayFrames [⟨none, true, some 5, some 2000000000, none, none, none⟩] =
      [⟨[], some ⟨some 5, some 2000000000, none, none, none⟩⟩] ∧
    statsKV ⟨some 5, some 2000000000, none, none, none⟩ =
      [("eval_count".data, (5 : ℚ)), ("eval_duration".data, (2000000000 : ℚ))] ∧
    specTerminalStatsKV ⟨some 5, some 2000000000, none, none, none⟩ =
      [("tokensPerSecond".data, (5 / 2 : ℚ)), ("totalTokens".data, (5 : ℚ)),
        ("generationTimeSeconds".data, (2 : ℚ))] ∧
    (specTerminalStatsKV ⟨some 5, some 2000000000, none, none, none⟩).map
        Prod.fst ≠
      (statsKV ⟨some 5, some 2000000000, none, none, none⟩).map Prod.fst := by
  have h2 : statsKV ⟨some 5, some 2000000000, none, none, none⟩ =
      [("eval_count".data, (5 : ℚ)), ("eval_duration".data, (2000000000 : ℚ))] := by
    norm_num [statsKV, optNatKV]
  have h3 : specTerminalStatsKV ⟨some 5, some 2000000000, none, none, none⟩ =
      [("tokensPerSecond".data, (5 / 2 : ℚ)), ("totalTokens".data, (5 : ℚ)),
        ("generationTimeSeconds".data, (2 : ℚ))] := by
    norm_num [specTerminalStatsKV, specThroughputField, specSeconds,
      round1, jsMathRound, optKV, optNatKV]
  exact ⟨rfl, h2, h3, by rw [h2, h3]; decide⟩

/-- C2 (amended): for *every* upstream record with `done:true`, the
terminal frame the relay writes downstream — the last frame its loop
body emits for that record — is a frame with empty content whose stats
field is the raw upstream counter object, copied field-for-field (absent
counters stay absent); the derived `GenerationStats` of §3 is computed
by the client from those counters, and for `eval_count 5`,
`eval_duration 2·10⁹ ns` it yields `tokensPerSecond 5/2 = 2.5`,
`totalTokens 5` and a generation time of `2` seconds. -/
theorem relay_terminal_frame_and_client_stats :
    (∀ r : UpstreamData, r.done = true →
      (relayFramesOfData r).getLast? =
        some ⟨[], some ⟨r.eval_count, r.eval_duration, r.prompt_eval_count,
          r.prompt_eval_duration, r.total_duration⟩⟩) ∧
    computeChatStats ⟨some 5, some 2000000000, none, none, none⟩ =
      ⟨some (5 / 2), none, some 5, none, some 2, none⟩ := by
  constructor
  · intro r h
    rw [relayFramesOfData_done_eq r h, List.getLast?_concat]
    rfl
  · norm_num [computeChatStats, roundedPerSecond, rawPerSecond, secondsOf,
      round1, jsMathRound, ChatStats.mk.injEq]

/-- Witness for C2: at the §8 terminal record (`done:true`,
`eval_count 5`, `eval_duration 2·10⁹`) the last emitted frame is the
empty-content frame carrying those raw counters, and the client
computation on them yields `tokensPerSecond 2.5`, `totalTokens 5`,
generation time `2` seconds. -/
theorem relay_terminal_frame_and_client_stats_witness :
    (relayFramesOfData
        ⟨none, true, some 5, some 2000000000, none, none, none⟩).getLast? =
      some ⟨[], some ⟨some 5, some 2000000000, none, none, none⟩⟩ ∧
    computeChatStats ⟨some 5, some 2000000000, none, none, none⟩ =
      ⟨some (5 / 2), none, some 5, none, some 2, none⟩ :=
  ⟨relay_terminal_frame_and_client_stats.1
      ⟨none, true, some 5, some 2000000000, none, none, none⟩ rfl,
    relay_terminal_frame_and_client_stats.2⟩

/-- Counterexample to C6 as stated: for `eval_count 0` with the nonzero
duration `10⁹ ns` the claim makes the field present with value
`0/(10⁹/10⁹) = 0.0` — but the code tests the truthiness of the *raw
quotient*, and `0` is falsy, so the field is omitted. -/
theorem zero_count_throughput_divergence :
    specThroughputField 0 (some 1000000000) = some 0 ∧
    roundedPerSecond (some 0) (some 1000000000) = none := by
  constructor
  · norm_num [specThroughputField, round1, jsMathRound]
  · norm_num [roundedPerSecond, rawPerSecond]

/-- C6 (amended): a throughput field is absent when its duration is zero
or undefined, and also when its count is zero or undefined (undefined
count gives JavaScript `NaN`, zero count gives falsy `0`; both are
dropped by the truthiness test); when both count and duration are
positive, the field is present and equals
`count / (duration / 1e9)` rounded to one decimal place.  The embedding
is total over exact rationals, so no `NaN`/`Infinity` value is ever
stored. -/
theorem throughput_field_characterization :
    (∀ d, roundedPerSecond none d = none) ∧
    (∀ c, roundedPerSecond c none = none) ∧
    (∀ c, roundedPerSecond (some c) (some 0) = none) ∧
    (∀ d, 0 < d → roundedPerSecond (some 0) (some d) = none) ∧
    (∀ c d, 0 < c → 0 < d →
      roundedPerSecond (some c) (some d) =
        some (round1 ((c : ℚ) / ((d : ℚ) / 1e9)))) := by
  refine ⟨?_, ?_, ?_, ?_, ?_⟩
  · intro d
    cases d with
    | none => rfl
    | some d => by_cases hd : d = 0 <;> simp [roundedPerSecond, rawPerSecond, hd]
  · intro c; rfl
  · intro c; simp [roundedPerSecond, rawPerSecond]
  · intro d hd
    simp [roundedPerSecond, rawPerSecond, Nat.pos_iff_ne_zero.mp hd]
  · intro c d hc hd
    have hc' : (0 : ℚ) < (c : ℚ) := by exact_mod_cast hc
    have hd' : (0 : ℚ) < (d : ℚ) := by exact_mod_cast hd
    have hq : (0 : ℚ) < (c : ℚ) / ((d : ℚ) / 1e9) := by positivity
    simp [roundedPerSecond, rawPerSecond, Nat.pos_iff_ne_zero.mp hd, hq.ne']

/-- Witness for C6: the five cases at concrete counters — absent for
undefined count, undefined duration, zero duration and zero count;
present and equal to the rounded quotient for `eval_count 5`,
`eval_duration 2·10⁹`. -/
theorem throughput_field_characterization_witness :
    roundedPerSecond none (some 7) = none ∧
    roundedPerSecond (some 7) none = none ∧
    roundedPerSecond (some 7) (some 0) = none ∧
    roundedPerSecond (some 0) (some 2000000000) = none ∧
    roundedPerSecond (some 5) (some 2000000000) =
      some (round1 ((5 : ℚ) / ((2000000000 : ℚ) / 1e9))) :=
  ⟨throughput_field_characterization.1 (some 7),
    throughput_field_characterization.2.1 (some 7),
    throughput_field_characterization.2.2.1 7,
    throughput_field_characterization.2.2.2.1 2000000000 (by decide),
    throughput_field_characterization.2.2.2.2 5 2000000000 (by decide) (by decide)⟩

/-- C8: if the blob for the conversation serializes within
`MAX_STORAGE_SIZE` (no truncation) and within the storage quota (no
`QuotaExceededError`), `ChatStorage.save` stores the conversation and
model verbatim and reports success, and `ChatStorage.load` of that cell
returns exactly the saved ordered message list and the saved model. -/
theorem storage_round_trip (serLen : StoredData → Nat) (quota : Nat)
    (cell : Option StoredData) (messages : List ChatMessage) (model : JsStr)
    (now : Nat)
    (hmax : serLen ⟨STORAGE_VERSION, messages, model, now⟩ ≤ MAX_STORAGE_SIZE)
    (hquota : serLen ⟨STORAGE_VERSION, messages, model, now⟩ ≤ quota) :
    ChatStorage.save serLen quota cell messages model now =
      (some ⟨STORAGE_VERSION, messages, model, now⟩, true) ∧
    (ChatStorage.load (some ⟨STORAGE_VERSION, messages, model, now⟩)).1 =
      some (messages, some model) := by
  constructor
  · simp only [ChatStorage.save]
    rw [if_neg (Nat.not_lt.mpr hmax), if_pos hquota]
  · simp [ChatStorage.load]

/-- Witness for C8: a one-turn conversation with model `"llama3.1:8b"`
round-trips through an empty cell under a length oracle reporting `0`. -/
theorem storage_round_trip_witness :
    ChatStorage.save (fun _ => 0) 0 none [⟨.user, "hi".data, none, none⟩]
        "llama3.1:8b".data 17 =
      (some ⟨STORAGE_VERSION, [⟨.user, "hi".data, none, none⟩],
        "llama3.1:8b".data, 17⟩, true) ∧
    (ChatStorage.load (some ⟨STORAGE_VERSION,
        [⟨.user, "hi".data, none, none⟩], "llama3.1:8b".data, 17⟩)).1 =
      some ([⟨.user, "hi".data, none, none⟩], some "llama3.1:8b".data) :=
  storage_round_trip (fun _ => 0) 0 none [⟨.user, "hi".data, none, none⟩]
    "llama3.1:8b".data 17 (by decide) (by decide)
